import Mathlib

/-!
# Verification of the stadgata viewport-aware caching layer

Shallow embedding of the viewport-aware geospatial caching and data-merging
layer of the stadgata client application, together with proofs about its
behaviour.  The embedded code lives in:

* `src/lib/api/cache.ts`        — persistent expiring key-value cache
* `src/lib/api/viewportCache.ts` — street cache, viewport keys, prefetching
* `src/lib/api/stockholm.ts`    — API response transformation and the
  viewport fetch orchestrator

JavaScript `Map`/`Set` objects are modelled as insertion-ordered association
lists / duplicate-free lists, `localStorage` as an association list of typed
records together with an environment-supplied quota predicate (quota
behaviour is environmental, not decided by the code), numbers as `ℚ`,
timestamps as `ℤ`, and `Math.random()` draws as explicitly supplied strings.
Fallible operations return pairs carrying the success flag exactly where the
source returns a boolean.
-/

namespace Stadgata

/-! ## JavaScript collection primitives

`Map` keyed by strings: an insertion-ordered association list.  `Map.set`
overwrites in place when the key exists, else appends; `Map.get` returns the
value at the key; `Set.add` appends when absent. -/

/-- JS `Map.prototype.set`: replace the entry in place when the key is
already present, otherwise append at the end (insertion order). -/
def mapSet {β : Type} (m : List (String × β)) (k : String) (v : β) :
    List (String × β) :=
  if m.any (fun p => p.1 == k) then
    m.map (fun p => if p.1 == k then (k, v) else p)
  else m ++ [(k, v)]

/-- JS `Map.prototype.get` (as an `Option`): value of the first entry with
the given key. -/
def mapGet {β : Type} (m : List (String × β)) (k : String) : Option β :=
  (m.find? (fun p => p.1 == k)).map (fun p => p.2)

/-- JS `Set.prototype.add` on an insertion-ordered duplicate-free list. -/
def setAdd (s : List String) (a : String) : List String :=
  if a ∈ s then s else s ++ [a]

/-- JS `String.prototype.startsWith`. -/
def strStartsWith (s pre : String) : Bool :=
  pre.data.isPrefixOf s.data

/-! ## `cache.ts` — persistent expiring key-value cache

`localStorage` is modelled as an association list from full string keys to
typed `{data, timestamp}` records (`Storage T`); the quota behaviour of the
underlying medium is a parameter `quotaOk : Storage T → String → CachedData T
→ Bool` saying whether a given `setItem` call succeeds (a `false` answer is a
`QuotaExceededError`).  JSON serialization length is likewise a parameter
`sz : T → Nat` standing for `JSON.stringify(data).length`. -/

/-- Constant `CACHE_PREFIX` in `cache.ts`. -/
def cacheNS : String := "stockholm-street-data"

/-- Constant `CACHE_DURATION_MS = 24 * 60 * 60 * 1000` (24 hours). -/
def CACHE_DURATION_MS : Int := 24 * 60 * 60 * 1000

/-- Record shape `CachedData<T>` stored by `setCachedData`. -/
structure CachedData (T : Type) where
  data : T
  timestamp : Int
deriving DecidableEq

/-- The `localStorage` contents, restricted to records of shape
`CachedData T`. -/
abbrev Storage (T : Type) := List (String × CachedData T)

/-- Full storage key (the CACHE_PREFIX, a dash, then the user key) used by
`getCachedData` / `setCachedData`. -/
def storageKey (key : String) : String := cacheNS ++ "-" ++ key

/-- Model of `localStorage.removeItem`. -/
def removeItem {T : Type} (st : Storage T) (k : String) : Storage T :=
  st.filter (fun p => !(p.1 == k))

/-- Function `getCachedData` from `cache.ts`: look the record up, treat records older
than 24 hours as absent and delete them as a side effect.  Returns the value
(or `none`) together with the updated storage. -/
def getCachedData {T : Type} (now : Int) (st : Storage T) (key : String) :
    Option T × Storage T :=
  match mapGet st (storageKey key) with
  | none => (none, st)
  | some cd0 =>
    if now - cd0.timestamp > CACHE_DURATION_MS then
      (none, removeItem st (storageKey key))
    else
      (some cd0.data, st)

/-- Function `clearCache` from `cache.ts`: remove every record whose key starts with
`CACHE_PREFIX`. -/
def clearCache {T : Type} (st : Storage T) : Storage T :=
  st.filter (fun p => !(strStartsWith p.1 cacheNS))

/-- Function `setCachedData` from `cache.ts`.  Attempts the write; on a quota error
it retries exactly once after purging the namespace, unless the serialized
size of the data is at least 8 MB, in which case it fails without purging.
Returns the success flag and the updated storage; every exception is caught
inside the source function, so the model is total. -/
def setCachedData {T : Type} (sz : T → Nat)
    (quotaOk : Storage T → String → CachedData T → Bool) (now : Int)
    (st : Storage T) (key : String) (data : T) : Bool × Storage T :=
  let dataSize := sz data
  let fullKey := storageKey key
  let rec1 : CachedData T := ⟨data, now⟩
  if quotaOk st fullKey rec1 then
    (true, mapSet st fullKey rec1)
  else
    -- QuotaExceededError branch
    if dataSize < 8 * 1024 * 1024 then
      let st1 := clearCache st
      if quotaOk st1 fullKey rec1 then
        (true, mapSet st1 fullKey rec1)
      else
        (false, st1)
    else
      (false, st)

/-! ## `stockholm.ts` — data model

`StreetSegment` is the canonical street entity.  Geometry coordinates as
they arrive from the upstream API are dynamically nested JSON arrays of
numbers; `CoordEntry` captures that dynamic shape (a point entry is either a
number or an array of entries). -/

/-- Dynamic JSON array entry for geometry coordinates: a number or a nested
array. -/
inductive CoordEntry where
  | num (q : ℚ)
  | arr (l : List CoordEntry)

/-- Test `Array.isArray` on a coordinate entry. -/
def CoordEntry.isArrB : CoordEntry → Bool
  | .arr _ => true
  | .num _ => false

/-- JS `Array.prototype.flat()` (one level) on a list of coordinate
entries. -/
def coordFlat (l : List CoordEntry) : List CoordEntry :=
  (l.map (fun e => match e with | .arr xs => xs | .num q => [CoordEntry.num q])).flatten

/-- Raw geometry of an API feature: `{type, coordinates}`. -/
structure GeometryRaw where
  type : String
  coordinates : List CoordEntry

/-- Transformed segment geometry retained for diagnostics (the `geometry`
field of `StreetSegment`). -/
structure SegGeometry where
  type : String
  coordinates : List CoordEntry

/-- Interface `StreetSegment` from `stockholm.ts`. -/
structure StreetSegment where
  id : String
  streetName : String
  addressRange : String
  cleaningDay : String
  coordinates : List (ℚ × ℚ)
  geometry : Option SegGeometry

/-- Feature of a `StockholmAPIResponse`: a property bag (JS object modelled
as an insertion-ordered association list of string values) and an optional
geometry.  A feature whose `geometry.coordinates` is missing or not an array
is not representable here; the source skips such features, so the model's
input type absorbs that guard. -/
structure APIFeature where
  properties : List (String × String)
  geometry : Option GeometryRaw

/-- Interface `StockholmAPIResponse`: an object with an optional `features`
array.  The source also contains a fallback branch for a bare-array response
body; that input lies outside the declared `StockholmAPIResponse` interface
and is not modelled. -/
structure APIResponse where
  features : Option (List APIFeature)

/-! ## `stockholm.ts` — `transformAPIResponse` -/

/-- JS truthiness fallback `a || b` on an (optional) string: `undefined` and
the empty string select the fallback. -/
def jsOrStr (a : Option String) (b : String) : String :=
  match a with
  | some s => if s == "" then b else s
  | none => b

/-- JS property read `props[k]` as an `Option`. -/
def getProp (props : List (String × String)) (k : String) : Option String :=
  mapGet props k

/-- JS `Object.keys(props)` (insertion order). -/
def propKeys (props : List (String × String)) : List String :=
  props.map (fun p => p.1)

/-- Containment of one character list in another. -/
def charsInfix (sub : List Char) : List Char → Bool
  | [] => sub.isEmpty
  | c :: t => sub.isPrefixOf (c :: t) || charsInfix sub t

/-- JS `String.prototype.includes`. -/
def strIncludes (s sub : String) : Bool :=
  charsInfix sub.data s.data

/-- Key search for the street name
(`Object.keys(props).find(...)` in `transformAPIResponse`). -/
def findStreetNameKey (props : List (String × String)) : Option String :=
  (propKeys props).find? (fun k =>
    k.toLower == "gatunamn" || k.toLower == "street_name" ||
    k.toLower == "streetname" || k == "STREET_NAME")

/-- Key search for the address range. -/
def findAddressRangeKey (props : List (String × String)) : Option String :=
  (propKeys props).find? (fun k =>
    k.toLower == "fromtom" || k.toLower == "from_to" ||
    k == "FROMTOM" || k == "FROM_TO")

/-- Key search for the cleaning day (body of the fallback IIFE). -/
def findCleaningDayKey (props : List (String × String)) : Option String :=
  (propKeys props).find? (fun k =>
    k == "START_WEEKDAY" ||
    k.toLower == "start_weekday" ||
    strIncludes k.toLower "weekday" ||
    k.toLower == "servicedag" ||
    k.toLower == "service_day" ||
    k.toLower == "cleaning_day" ||
    k.toLower == "dag" ||
    k == "SERVICEDAG" ||
    k == "SERVICE_DAY" ||
    k == "CLEANING_DAY" ||
    k == "DAG")

/-- Street name resolution in `transformAPIResponse`. -/
def resolveStreetName (props : List (String × String)) : String :=
  match findStreetNameKey props with
  | some k => (getProp props k).getD ""
  | none =>
    jsOrStr (getProp props "gatunamn")
      (jsOrStr (getProp props "GATUNAMN")
        (jsOrStr (getProp props "STREET_NAME") "Unknown Street"))

/-- Address range resolution in `transformAPIResponse`. -/
def resolveAddressRange (props : List (String × String)) : String :=
  match findAddressRangeKey props with
  | some k => (getProp props k).getD ""
  | none =>
    jsOrStr (getProp props "fromtom")
      (jsOrStr (getProp props "FROMTOM")
        (jsOrStr (getProp props "FROM_TO") ""))

/-- Cleaning day resolution: `props.START_WEEKDAY || (() => {...})()`. -/
def resolveCleaningDay (props : List (String × String)) : String :=
  jsOrStr (getProp props "START_WEEKDAY")
    (match findCleaningDayKey props with
     | some k => (getProp props k).getD ""
     | none => "")

/-- Geometry-coordinates extraction in `transformAPIResponse` (the
`LineString` / `MultiLineString` / other-type branches, including the
single-point wrap when `coords[0]` is not an array and `flat()` for
multi-line geometry). -/
def extractCoordinates (g : GeometryRaw) : List CoordEntry :=
  let coords := g.coordinates
  if g.type == "LineString" || g.type == "LINESTRING" then
    match coords with
    | [] => []
    | e :: _ => if e.isArrB then coords else [CoordEntry.arr coords]
  else if g.type == "MultiLineString" || g.type == "MULTILINESTRING" then
    match coords with
    | [] => []
    | e :: _ => if e.isArrB then coordFlat coords else []
  else
    match coords with
    | [] => []
    | e :: _ => if e.isArrB then coords else [CoordEntry.arr coords]

/-- Feature loop of `transformAPIResponse` over the `features` array.
`tc` is the coordinate transformer `transformCoordinates` (an external
collaborator consumed as a black box, hence a parameter), and `rnds`
supplies the successive stringified `Math.random()` draws, one consumed per
pushed segment. -/
def transformFeatures (tc : List CoordEntry → List (ℚ × ℚ)) :
    List String → List APIFeature → List StreetSegment
  | _, [] => []
  | rnds, f :: rest =>
    match f.geometry with
    | none => transformFeatures tc rnds rest
    | some g =>
      let coordinates := extractCoordinates g
      if coordinates.length < 2 then transformFeatures tc rnds rest
      else
        let props := f.properties
        let streetName := resolveStreetName props
        let addressRange := resolveAddressRange props
        let cleaningDay := resolveCleaningDay props
        let wgs84Coords := tc coordinates
        let rnd := rnds.headD ""
        { id := streetName ++ "-" ++ addressRange ++ "-" ++ cleaningDay ++
            "-" ++ rnd,
          streetName := streetName,
          addressRange := addressRange,
          cleaningDay := cleaningDay,
          coordinates := wgs84Coords,
          geometry := some ⟨jsOrStr (some g.type) "LineString", coordinates⟩ }
          :: transformFeatures tc rnds.tail rest

/-- Function `transformAPIResponse` from `stockholm.ts` (features branch;
`data.features && Array.isArray(data.features)`). -/
def transformAPIResponse (tc : List CoordEntry → List (ℚ × ℚ))
    (rnds : List String) (data : APIResponse) : List StreetSegment :=
  match data.features with
  | some feats => transformFeatures tc rnds feats
  | none => []

/-! ## `viewportCache.ts` — `StreetCache` -/

/-- In-memory state of a `StreetCache` instance: the Global Street Store
`streetMap` (JS `Map`) and the Viewport Cache `viewportCache` (JS `Map` of
JS `Set`s of street ids). -/
structure StreetCacheState where
  streetMap : List (String × StreetSegment)
  viewportCache : List (String × List String)

/-- Freshly constructed, nothing loaded. -/
def emptyStreetCache : StreetCacheState := ⟨[], []⟩

/-- Identity assignment in `addStreetsForViewport`:
`street.id || streetName-addressRange-cleaningDay` (JS truthiness: the
derived identity is used only when `street.id` is the empty string). -/
def assignedStreetId (street : StreetSegment) : String :=
  if street.id == "" then
    street.streetName ++ "-" ++ street.addressRange ++ "-" ++
      street.cleaningDay
  else street.id

/-- Loop body of `addStreetsForViewport`: upsert the street into the street
map under its identity and collect the identity. -/
def addStreetsStep (acc : List (String × StreetSegment) × List String)
    (street : StreetSegment) : List (String × StreetSegment) × List String :=
  let id := assignedStreetId street
  let street1 := { street with id := id }
  (mapSet acc.1 id street1, setAdd acc.2 id)

/-- Method `StreetCache.addStreetsForViewport` (in-memory effect): upsert
every segment into `streetMap` and replace the id set recorded for the
viewport key.  The synchronous `saveToStorage()` call at the end touches
only persistent storage; `addStreetsForViewportPersist` below models the
combined effect. -/
def addStreetsForViewport (st : StreetCacheState) (viewportKey : String)
    (streets : List StreetSegment) : StreetCacheState :=
  let folded := streets.foldl addStreetsStep (st.streetMap, [])
  { streetMap := folded.1,
    viewportCache := mapSet st.viewportCache viewportKey folded.2 }

/-- Method `StreetCache.getStreetsForViewport`: resolve each recorded id in
the street map, silently skipping ids that do not resolve. -/
def getStreetsForViewport (st : StreetCacheState) (viewportKey : String) :
    List StreetSegment :=
  match mapGet st.viewportCache viewportKey with
  | none => []
  | some ids => ids.filterMap (fun id => mapGet st.streetMap id)

/-- Method `StreetCache.hasViewport`. -/
def hasViewport (st : StreetCacheState) (viewportKey : String) : Bool :=
  (mapGet st.viewportCache viewportKey).isSome

/-- Method `StreetCache.getAllStreets`. -/
def getAllStreets (st : StreetCacheState) : List StreetSegment :=
  st.streetMap.map (fun p => p.2)

/-! ## `viewportCache.ts` — persistence of the street cache -/

/-- Composite record persisted by `StreetCache.saveToStorage`:
`{streets: Array.from(streetMap.entries()), viewports: ...}` (a `Set` of
ids serializes as the array of its elements, which is exactly the model's
list). -/
structure PersistedStreetData where
  streets : List (String × StreetSegment)
  viewports : List (String × List String)

/-- JS `new Map(entries)`: fold `Map.set` over the entry list. -/
def newMapFromList {β : Type} (l : List (String × β)) : List (String × β) :=
  l.foldl (fun m p => mapSet m p.1 p.2) []

/-- JS `new Set(elems)`: fold `Set.add` over the element list. -/
def newSetFromList (l : List String) : List String :=
  l.foldl setAdd []

/-- Method `StreetCache.saveToStorage`: persist both maps as one composite
record under the fixed key `street-cache-by-id` via `setCachedData`,
ignoring the success flag (errors are caught and logged). -/
def saveToStorage (sz : PersistedStreetData → Nat)
    (quotaOk : Storage PersistedStreetData → String →
      CachedData PersistedStreetData → Bool)
    (now : Int) (st : StreetCacheState)
    (store : Storage PersistedStreetData) : Storage PersistedStreetData :=
  (setCachedData sz quotaOk now store "street-cache-by-id"
    ⟨st.streetMap, st.viewportCache⟩).2

/-- Construction of a `StreetCache` instance (`loadFromStorage` in the
constructor): read the composite record through `getCachedData` and rebuild
both maps with `new Map` / `new Set`; start empty on a miss. -/
def streetCacheLoad (now : Int) (store : Storage PersistedStreetData) :
    StreetCacheState × Storage PersistedStreetData :=
  match getCachedData now store "street-cache-by-id" with
  | (none, store1) => (emptyStreetCache, store1)
  | (some d, store1) =>
    ({ streetMap := newMapFromList d.streets,
       viewportCache := newMapFromList
         (d.viewports.map (fun p => (p.1, newSetFromList p.2))) }, store1)

/-- Combined effect of `StreetCache.addStreetsForViewport`: the in-memory
update followed by the synchronous `saveToStorage()`. -/
def addStreetsForViewportPersist (sz : PersistedStreetData → Nat)
    (quotaOk : Storage PersistedStreetData → String →
      CachedData PersistedStreetData → Bool)
    (now : Int) (st : StreetCacheState)
    (store : Storage PersistedStreetData) (viewportKey : String)
    (streets : List StreetSegment) :
    StreetCacheState × Storage PersistedStreetData :=
  let st1 := addStreetsForViewport st viewportKey streets
  (st1, saveToStorage sz quotaOk now st1 store)

/-! ## `viewportCache.ts` — operation sequences on the street cache

Reachability of in-memory street-cache states from the empty state through
the two mutation entry points (`addStreetsForViewport` and `clear`). -/

/-- One mutation of the street cache: the sole mutation path
`addStreetsForViewport`, or `clear()` (which empties both maps in
memory). -/
inductive CacheOp where
  | add (viewportKey : String) (streets : List StreetSegment)
  | clear

/-- Application of one mutation to the in-memory state. -/
def applyOp (st : StreetCacheState) : CacheOp → StreetCacheState
  | .add k streets => addStreetsForViewport st k streets
  | .clear => emptyStreetCache

/-- State reached from a freshly-constructed empty cache by a sequence of
mutations. -/
def runOps (ops : List CacheOp) : StreetCacheState :=
  ops.foldl applyOp emptyStreetCache

/-! ## `viewportCache.ts` — `getViewportCacheKey` -/

/-- JS `Math.round`: nearest integer, ties toward positive infinity. -/
def jsRound (x : ℚ) : Int := ⌊x + 1/2⌋

/-- Three-digit zero padding for the fractional part of `toFixed(3)`. -/
def pad3 (n : Nat) : String :=
  if n < 10 then "00" ++ toString n
  else if n < 100 then "0" ++ toString n
  else toString n

/-- JS `Number.prototype.toFixed(3)` for a non-negative value: round to the
nearest thousandth (ties toward the larger value) and print with exactly
three decimals. -/
def toFixed3aux (q : ℚ) : String :=
  let m : Nat := (⌊q * 1000 + 1/2⌋).toNat
  toString (m / 1000) ++ "." ++ pad3 (m % 1000)

/-- JS `Number.prototype.toFixed(3)`; a negative value formats as the minus
sign followed by the formatted absolute value. -/
def toFixed3 (q : ℚ) : String :=
  if q < 0 then "-" ++ toFixed3aux (-q) else toFixed3aux q

/-- Function `getViewportCacheKey` from `viewportCache.ts`: quantize
latitude and longitude to the 1/200-degree grid and the radius to the
nearest 500 m, then format the fixed-precision key string. -/
def getViewportCacheKey (center : ℚ × ℚ) (radius : ℚ) : String :=
  let lat := center.1
  let lng := center.2
  let roundedLat : ℚ := (jsRound (lat * 200) : ℚ) / 200
  let roundedLng : ℚ := (jsRound (lng * 200) : ℚ) / 200
  let roundedRadius : Int := jsRound (radius / 500) * 500
  "vp-" ++ toFixed3 roundedLat ++ "-" ++ toFixed3 roundedLng ++ "-" ++
    toString roundedRadius

/-! ## `viewportCache.ts` — `PrefetchManager`

The runtime is a single-threaded event loop: the body of
`prefetchViewport` up to its single `await fetchFn(...)` runs atomically,
and the remainder (cache merge and in-flight release) runs atomically when
the awaited fetch settles.  The two atomic sections are modelled as separate
transition functions; an interleaving of concurrent calls is a sequence of
such transitions. -/

/-- Combined state seen by the prefetch manager: the street cache singleton
and the in-flight key set `activePrefetches`. -/
structure PrefetchState where
  cache : StreetCacheState
  activePrefetches : List String

/-- Atomic section of `prefetchViewport` before its `await`: compute the
key; if the viewport is already cached or already in flight return without
fetching, otherwise mark the key in flight and invoke `fetchFn`.  The
returned flag records whether `fetchFn` was invoked. -/
def prefetchViewportStart (ps : PrefetchState) (center : ℚ × ℚ)
    (radius : ℚ) : PrefetchState × Bool :=
  let cacheKey := getViewportCacheKey center radius
  if hasViewport ps.cache cacheKey ||
      ps.activePrefetches.contains cacheKey then
    (ps, false)
  else
    ({ ps with activePrefetches := setAdd ps.activePrefetches cacheKey },
      true)

/-- Atomic section of `prefetchViewport` after its `await` settles: on
success (`some streets`) merge the result into the street cache; on failure
swallow the error; in both cases release the in-flight marker
(`finally`). -/
def prefetchViewportFinish (ps : PrefetchState) (center : ℚ × ℚ)
    (radius : ℚ) (result : Option (List StreetSegment)) : PrefetchState :=
  let cacheKey := getViewportCacheKey center radius
  let cache1 := match result with
    | some streets => addStreetsForViewport ps.cache cacheKey streets
    | none => ps.cache
  { cache := cache1,
    activePrefetches :=
      ps.activePrefetches.filter (fun k => !(k == cacheKey)) }

/-- Offset table of `prefetchSurrounding` — the `[dx, dy]` unit(ish)
vectors for N, NE, E, SE, S, SW, W, NW. -/
def compassOffsets : List (ℚ × ℚ) :=
  [(0, 1), (0.707, 0.707), (1, 0), (0.707, -0.707),
   (0, -1), (-0.707, -0.707), (-1, 0), (-0.707, 0.707)]

/-- Geometry of `PrefetchManager.prefetchSurrounding`: the list of
`(center, radius)` arguments of the 8 `prefetchViewport` calls it fires.
The new centers offset the latitude by `dy` and the longitude by `dx` times
`radius / 111000` degrees, and every call uses the reduced viewport radius
`radius * 0.8`. -/
def prefetchTargets (center : ℚ × ℚ) (radius : ℚ) :
    List ((ℚ × ℚ) × ℚ) :=
  let lat := center.1
  let lng := center.2
  let prefetchRadius : ℚ := radius * 0.8
  let radiusInDegrees : ℚ := radius / 111000
  compassOffsets.map (fun o =>
    ((lat + o.2 * radiusInDegrees, lng + o.1 * radiusInDegrees),
      prefetchRadius))

/-! ## `stockholm.ts` — `fetchStreetDataByViewport`

The orchestrator's observable decision structure: serve from the street
cache on a key hit, otherwise issue one network request whose query
parameters are recorded in a `FetchRequest`, transform the response body
and merge it into the cache under the originally computed key.  Timeout
and error paths re-throw without caching and the background
`prefetchSurrounding` trigger mutates no orchestrator state, so neither
needs to appear in the return value. -/

/-- Query parameters of the issued network request, read off the URL
template `/within?radius=R&lat=LAT&lng=LNG`. -/
structure FetchRequest where
  radius : ℚ
  lat : ℚ
  lng : ℚ

/-- Function `fetchStreetDataByViewport` from `stockholm.ts` (success
path): returns the served segments, the street cache after the call, and
the request issued to the network (`none` on a cache hit). -/
def fetchStreetDataByViewport (tc : List CoordEntry → List (ℚ × ℚ))
    (rnds : List String) (st : StreetCacheState) (center : ℚ × ℚ)
    (radius : ℚ) (response : APIResponse) :
    List StreetSegment × StreetCacheState × Option FetchRequest :=
  let cacheKey := getViewportCacheKey center radius
  if hasViewport st cacheKey then
    (getStreetsForViewport st cacheKey, st, none)
  else
    let req : FetchRequest := ⟨radius, center.1, center.2⟩
    let streets := transformAPIResponse tc rnds response
    (streets, addStreetsForViewport st cacheKey streets, some req)

/-! ## Representation invariant of the JS collections

JS `Map`s never hold two entries with the same key and JS `Set`s never hold
a duplicate element; in the association-list/list model this is the
well-formedness predicate below, satisfied by every state an actual
`StreetCache` instance can hold. -/

/-- Well-formedness of a street-cache state: duplicate-free keys in both
maps and duplicate-free id sets. -/
def WFState (st : StreetCacheState) : Prop :=
  (st.streetMap.map Prod.fst).Nodup ∧
  (st.viewportCache.map Prod.fst).Nodup ∧
  ∀ p ∈ st.viewportCache, p.2.Nodup

/-! ## Concrete sample inputs used in closed evaluation theorems -/

/-- Sample upstream feature: a two-point `LineString` with Swedish property
names. -/
def sampleFeature : APIFeature :=
  { properties :=
      [("gatunamn", "Sveavagen"), ("fromtom", "1-3"),
       ("START_WEEKDAY", "mandag")],
    geometry := some ⟨"LineString",
      [.arr [.num 18, .num 59], .arr [.num 19, .num 60]]⟩ }

/-- Sample coordinate transformer standing in for `transformCoordinates`. -/
def tcSample : List CoordEntry → List (ℚ × ℚ) :=
  fun _ => [(18.06, 59.33), (18.07, 59.34)]

/-- Sample street segment with a preassigned id. -/
def sampleSegment : StreetSegment :=
  { id := "s1", streetName := "A", addressRange := "", cleaningDay := "mon",
    coordinates := [(0, 0), (1, 1)], geometry := none }

/-! # Theorems

First a toolbox of lemmas about the JS collection model, then one theorem
per specification claim (with witnesses and counterexamples). -/

theorem mapGet_nil {β : Type} (k : String) :
    mapGet ([] : List (String × β)) k = none := rfl

theorem mapGet_cons {β : Type} (p : String × β) (t : List (String × β))
    (k : String) :
    mapGet (p :: t) k = if p.1 == k then some p.2 else mapGet t k := by
  cases hp : p.1 == k <;> simp [mapGet, List.find?, hp]

theorem mapGet_map_replace_self {β : Type} (m : List (String × β))
    (k : String) (v : β) (h : m.any (fun p => p.1 == k) = true) :
    mapGet (m.map (fun p => if p.1 == k then (k, v) else p)) k = some v := by
  induction m with
  | nil => simp at h
  | cons p t ih =>
    cases hp : p.1 == k with
    | true =>
      have hp' : p.1 = k := by simpa using hp
      simp [mapGet_cons, hp']
    | false =>
      have ht : t.any (fun p => p.1 == k) = true := by
        simpa [List.any_cons, hp] using h
      have hp' : ¬(p.1 = k) := by simpa using hp
      simpa [mapGet_cons, hp'] using ih ht

theorem mapGet_append_single_self {β : Type} (m : List (String × β))
    (k : String) (v : β) (h : m.any (fun p => p.1 == k) = false) :
    mapGet (m ++ [(k, v)]) k = some v := by
  induction m with
  | nil => simp [mapGet_cons]
  | cons p t ih =>
    simp only [List.any_cons, Bool.or_eq_false_iff] at h
    simpa [mapGet_cons, h.1] using ih h.2

theorem mapGet_mapSet_self {β : Type} (m : List (String × β)) (k : String)
    (v : β) : mapGet (mapSet m k v) k = some v := by
  unfold mapSet
  cases hb : m.any (fun p => p.1 == k) with
  | true => simpa [hb] using mapGet_map_replace_self m k v hb
  | false => simpa [hb] using mapGet_append_single_self m k v hb

theorem mapGet_map_replace_ne {β : Type} (m : List (String × β))
    (k k' : String) (v : β) (hne : k' ≠ k) :
    mapGet (m.map (fun p => if p.1 == k then (k, v) else p)) k' =
      mapGet m k' := by
  have hkk : ¬(k = k') := fun h => hne h.symm
  induction m with
  | nil => rfl
  | cons p t ih =>
    cases hp : p.1 == k with
    | true =>
      have hp' : p.1 = k := by simpa using hp
      simpa [mapGet_cons, hp', hkk] using ih
    | false =>
      have hp' : ¬(p.1 = k) := by simpa using hp
      cases hpk : p.1 == k' with
      | true =>
        have h1 : p.1 = k' := by simpa using hpk
        simp [mapGet_cons, hp', h1, hkk, hne]
      | false =>
        have h1 : ¬(p.1 = k') := by simpa using hpk
        simp only [List.map_cons, mapGet_cons]
        simp [hp', h1]
        simpa using ih

theorem mapGet_append_single_ne {β : Type} (m : List (String × β))
    (k k' : String) (v : β) (hne : k' ≠ k) :
    mapGet (m ++ [(k, v)]) k' = mapGet m k' := by
  have hkk : ¬(k = k') := fun h => hne h.symm
  induction m with
  | nil => simp [mapGet_cons, mapGet_nil, hkk]
  | cons p t ih => cases hp : p.1 == k' <;> simp [mapGet_cons, hp, ih]

theorem mapGet_mapSet_ne {β : Type} (m : List (String × β)) (k k' : String)
    (v : β) (hne : k' ≠ k) :
    mapGet (mapSet m k v) k' = mapGet m k' := by
  unfold mapSet
  cases hb : m.any (fun p => p.1 == k) with
  | true => simpa [hb] using mapGet_map_replace_ne m k k' v hne
  | false => simpa [hb] using mapGet_append_single_ne m k k' v hne

theorem isSome_mapGet_mapSet {β : Type} (m : List (String × β))
    (k k' : String) (v : β) (h : (mapGet m k').isSome = true) :
    (mapGet (mapSet m k v) k').isSome = true := by
  by_cases he : k' = k
  · subst he; rw [mapGet_mapSet_self]; rfl
  · rw [mapGet_mapSet_ne m k k' v he]; exact h

theorem length_le_mapSet {β : Type} (m : List (String × β)) (k : String)
    (v : β) : m.length ≤ (mapSet m k v).length := by
  unfold mapSet
  split <;> simp

theorem keys_mapSet {β : Type} (m : List (String × β)) (k : String)
    (v : β) :
    (mapSet m k v).map Prod.fst =
      if m.any (fun p => p.1 == k) then m.map Prod.fst
      else m.map Prod.fst ++ [k] := by
  unfold mapSet
  cases hb : m.any (fun p => p.1 == k) with
  | true =>
    simp only [hb, if_true, List.map_map]
    apply List.map_congr_left
    intro p _
    cases hk : p.1 == k with
    | true =>
      have hk' : p.1 = k := by simpa using hk
      simp [Function.comp, hk']
    | false =>
      have hk' : ¬(p.1 = k) := by simpa using hk
      simp [Function.comp, hk']
  | false => simp [hb]

theorem nodup_keys_mapSet {β : Type} (m : List (String × β)) (k : String)
    (v : β) (h : (m.map Prod.fst).Nodup) :
    ((mapSet m k v).map Prod.fst).Nodup := by
  rw [keys_mapSet]
  cases hb : m.any (fun p => p.1 == k) with
  | true => simpa [hb] using h
  | false =>
    have hk : k ∉ m.map Prod.fst := by
      intro hmem
      obtain ⟨p, hp, hpk⟩ := List.mem_map.mp hmem
      have : m.any (fun p => p.1 == k) = true :=
        List.any_eq_true.mpr ⟨p, hp, by simp [hpk]⟩
      rw [this] at hb; cases hb
    simp [hb, List.nodup_append, h, hk]

theorem mem_mapSet {β : Type} (m : List (String × β)) (k : String) (v : β)
    (x : String × β) (hx : x ∈ mapSet m k v) : x = (k, v) ∨ x ∈ m := by
  unfold mapSet at hx
  split at hx
  · obtain ⟨p, hp, hpe⟩ := List.mem_map.mp hx
    by_cases hk : p.1 == k
    · simp [hk] at hpe; exact Or.inl hpe.symm
    · simp [hk] at hpe; exact Or.inr (hpe ▸ hp)
  · rcases List.mem_append.mp hx with h | h
    · exact Or.inr h
    · simp at h; exact Or.inl h

theorem mem_setAdd (l : List String) (a x : String) :
    x ∈ setAdd l a ↔ x ∈ l ∨ x = a := by
  unfold setAdd
  split
  · rename_i hmem
    constructor
    · exact Or.inl
    · rintro (h | rfl)
      · exact h
      · exact hmem
  · simp

theorem setAdd_nodup (l : List String) (a : String) (h : l.Nodup) :
    (setAdd l a).Nodup := by
  unfold setAdd
  split
  · exact h
  · rename_i hmem
    simp [List.nodup_append, h, hmem]

theorem mapGet_filter_none {β : Type} (m : List (String × β)) (k : String)
    (f : String × β → Bool) (hf : ∀ p : String × β, p.1 = k → f p = false) :
    mapGet (m.filter f) k = none := by
  induction m with
  | nil => rfl
  | cons p t ih =>
    cases hp : f p with
    | true =>
      have hpk : ¬(p.1 = k) := by
        intro he; rw [hf p he] at hp; cases hp
      have hpk' : (p.1 == k) = false := by simpa using hpk
      simp [List.filter_cons, hp, mapGet_cons, hpk', ih]
    | false => simp [List.filter_cons, hp, ih]

theorem isPrefixOf_append_self (l t : List Char) :
    l.isPrefixOf (l ++ t) = true := by
  induction l with
  | nil => simp [List.isPrefixOf]
  | cons c cs ih => simp [List.isPrefixOf, ih]

theorem strStartsWith_storageKey (k : String) :
    strStartsWith (storageKey k) cacheNS = true := by
  unfold strStartsWith storageKey
  rw [String.data_append]
  exact isPrefixOf_append_self _ _

theorem mapGet_clearCache {T : Type} (st : Storage T) (kk : String)
    (h : strStartsWith kk cacheNS = true) :
    mapGet (clearCache st) kk = none := by
  unfold clearCache
  apply mapGet_filter_none
  intro p hp
  rw [hp, h]
  rfl

/-! ## Claim C5 — oversize writes fail without purging -/

/-- C5: for every key and value whose serialized size exceeds the 8 MB
ceiling, when the underlying write is rejected by the storage quota and no
record previously existed for the key, `setCachedData` returns `false`
(never throwing — the model is total by construction), leaves the storage
untouched (in particular no namespace purge happens), and a subsequent
`getCachedData` for the key misses. -/
theorem setCachedData_oversize_fails {T : Type} (sz : T → Nat)
    (quotaOk : Storage T → String → CachedData T → Bool) (now now2 : Int)
    (st : Storage T) (key : String) (data : T)
    (hsize : 8 * 1024 * 1024 < sz data)
    (hquota : quotaOk st (storageKey key) ⟨data, now⟩ = false)
    (habsent : mapGet st (storageKey key) = none) :
    setCachedData sz quotaOk now st key data = (false, st) ∧
    (getCachedData now2 st key).1 = none := by
  constructor
  · have hlt : ¬(sz data < 8 * 1024 * 1024) := by omega
    unfold setCachedData
    simp [hquota, hlt]
  · unfold getCachedData
    rw [habsent]

/-- Witness for C5 at a concrete oversize write against a full store. -/
theorem setCachedData_oversize_fails_witness :
    8 * 1024 * 1024 < (fun _ : Nat => 8388609) 0 ∧
    (setCachedData (fun _ : Nat => 8388609) (fun _ _ _ => false) 0
        ([] : Storage Nat) "k" 0 = (false, []) ∧
      (getCachedData 5 ([] : Storage Nat) "k").1 = none) :=
  ⟨by decide,
    setCachedData_oversize_fails (fun _ : Nat => 8388609)
      (fun _ _ _ => false) 0 5 [] "k" 0 (by decide) rfl rfl⟩

/-! ## Claim C6 — 24-hour TTL with lazy purge on read -/

/-- C6: a record written at time `t` and read at `t + 24h + 1` is a miss
and is removed from storage as a side effect; a read at any time with
`now - t ≤ 24h` is a hit returning the stored value and leaving storage
unchanged. -/
theorem getCachedData_ttl {T : Type} (st : Storage T) (key : String)
    (v : T) (t : Int)
    (hrec : mapGet st (storageKey key) = some ⟨v, t⟩) :
    getCachedData (t + CACHE_DURATION_MS + 1) st key =
      (none, removeItem st (storageKey key)) ∧
    ∀ now : Int, now - t ≤ CACHE_DURATION_MS →
      getCachedData now st key = (some v, st) := by
  constructor
  · have hgt : t + CACHE_DURATION_MS + 1 - t > CACHE_DURATION_MS := by omega
    unfold getCachedData
    rw [hrec]
    simp [hgt]
  · intro now hn
    have hle : ¬(now - t > CACHE_DURATION_MS) := by omega
    unfold getCachedData
    rw [hrec]
    simp [hle]

/-- Witness for C6: a record stored at time 100, read just past expiry and
at its write time. -/
theorem getCachedData_ttl_witness :
    (getCachedData (100 + CACHE_DURATION_MS + 1)
        [(storageKey "k", (⟨7, 100⟩ : CachedData Nat))] "k" =
      (none,
        removeItem [(storageKey "k", (⟨7, 100⟩ : CachedData Nat))]
          (storageKey "k"))) ∧
    ((100 : Int) - 100 ≤ CACHE_DURATION_MS ∧
      getCachedData 100 [(storageKey "k", (⟨7, 100⟩ : CachedData Nat))] "k" =
        (some 7, [(storageKey "k", ⟨7, 100⟩)])) := by
  have h := getCachedData_ttl
    [(storageKey "k", (⟨7, 100⟩ : CachedData Nat))] "k" 7 100 rfl
  exact ⟨h.1, by decide, h.2 100 (by decide)⟩

/-! ## Claim C10 — the quota-recovery purge removes unrelated records -/

/-- C10: when a write of data below the 8 MB ceiling hits the storage
quota, the recovery purge removes every record under the shared
`stockholm-street-data` namespace — including an unrelated key holding a
valid record (such as the street cache's composite record), which is gone
from storage after the `setCachedData` call regardless of whether the
retried write succeeded. -/
theorem setCachedData_quota_purge {T : Type} (sz : T → Nat)
    (quotaOk : Storage T → String → CachedData T → Bool) (now : Int)
    (st : Storage T) (key k' : String) (data : T) (cd' : CachedData T)
    (hsize : sz data < 8 * 1024 * 1024)
    (hquota : quotaOk st (storageKey key) ⟨data, now⟩ = false)
    (hne : storageKey k' ≠ storageKey key)
    (hrec : mapGet st (storageKey k') = some cd') :
    mapGet (setCachedData sz quotaOk now st key data).2 (storageKey k') =
      none := by
  have hclear : mapGet (clearCache st) (storageKey k') = none :=
    mapGet_clearCache st _ (strStartsWith_storageKey k')
  unfold setCachedData
  cases hq2 : quotaOk (clearCache st) (storageKey key) ⟨data, now⟩ with
  | true =>
    simp [hquota, hsize, hq2, mapGet_mapSet_ne _ _ _ _ hne, hclear]
  | false =>
    simp [hquota, hsize, hq2, hclear]

/-- Witness for C10: a small write that hits the quota wipes the unrelated
record stored under `stockholm-street-data-other`. -/
theorem setCachedData_quota_purge_witness :
    (fun _ : Nat => 5) 0 < 8 * 1024 * 1024 ∧
    storageKey "other" ≠ storageKey "k" ∧
    mapGet (setCachedData (fun _ : Nat => 5) (fun _ _ _ => false) 0
        [(storageKey "other", ⟨1, 0⟩)] "k" 0).2 (storageKey "other") =
      none :=
  ⟨by decide, by decide,
    setCachedData_quota_purge (fun _ : Nat => 5) (fun _ _ _ => false) 0
      [(storageKey "other", ⟨1, 0⟩)] "k" "other" 0 ⟨1, 0⟩ (by decide) rfl
      (by decide) rfl⟩

/-! ## Claim C4 — viewport-key quantization -/

/-- C4 counterexample: two inputs whose latitudes differ by 0.0002° (about
22 m, far below 250 m; longitudes and radii identical) straddle a rounding
boundary of the 1/200-degree grid and receive different viewport keys. -/
theorem getViewportCacheKey_250m_counterexample :
    ((26/10000 : ℚ) - 24/10000) * 111000 < 250 ∧
    getViewportCacheKey (24/10000, 18) 1000 ≠
      getViewportCacheKey (26/10000, 18) 1000 := by
  constructor
  · with_unfolding_all decide
  · with_unfolding_all decide

/-- C4 (amended): `getViewportCacheKey` is constant on quantization cells —
any two inputs whose latitudes and longitudes round to the same 1/200-degree
grid point and whose radii round to the same 500 m multiple receive the
identical key (inputs within 250 m of each other may still straddle a cell
boundary and receive different keys). -/
theorem getViewportCacheKey_quantization (c1 c2 : ℚ × ℚ) (r1 r2 : ℚ)
    (hlat : jsRound (c1.1 * 200) = jsRound (c2.1 * 200))
    (hlng : jsRound (c1.2 * 200) = jsRound (c2.2 * 200))
    (hrad : jsRound (r1 / 500) = jsRound (r2 / 500)) :
    getViewportCacheKey c1 r1 = getViewportCacheKey c2 r2 := by
  simp only [getViewportCacheKey]
  rw [hlat, hlng, hrad]

/-- Witness for the amended C4 at two nearby Stockholm viewports. -/
theorem getViewportCacheKey_quantization_witness :
    jsRound ((59.331 : ℚ) * 200) = jsRound ((59.332 : ℚ) * 200) ∧
    jsRound ((18.062 : ℚ) * 200) = jsRound ((18.061 : ℚ) * 200) ∧
    jsRound ((1000 : ℚ) / 500) = jsRound ((1100 : ℚ) / 500) ∧
    getViewportCacheKey (59.331, 18.062) 1000 =
      getViewportCacheKey (59.332, 18.061) 1100 :=
  ⟨by with_unfolding_all decide, by with_unfolding_all decide,
    by with_unfolding_all decide,
    getViewportCacheKey_quantization (59.331, 18.062) (59.332, 18.061)
      1000 1100 (by with_unfolding_all decide)
      (by with_unfolding_all decide) (by with_unfolding_all decide)⟩

/-! ## Claim C3 — prefetch geometry -/

set_option maxRecDepth 10000 in
/-- C3 counterexample: the East prefetch target sits `radius/111000`
degrees from the center — a full radius (1000 m under the code's own
111 km/degree conversion), not 0.8×radius; the 0.8 factor is the prefetched
viewport's radius (800), the third component below. -/
theorem prefetchSurrounding_distance_counterexample :
    (prefetchTargets (0, 0) 1000)[2]? = some ((0, 1000/111000), 800) ∧
    (1000/111000 : ℚ) ≠ (0.8 * 1000)/111000 := by
  constructor
  · with_unfolding_all decide
  · with_unfolding_all decide

/-- C3 (amended): `prefetchSurrounding` fires 8 `prefetchViewport` calls
(un-awaited in the source), each with viewport radius 0.8×radius, whose
centers lie at the 8 compass directions at squared distance `radius²`
(cardinal directions) or `0.999698·radius²` (diagonal directions, whose
offsets use the 0.707 approximation of √2/2) under the fixed 111 km/degree
meters-to-degrees conversion. -/
theorem prefetchSurrounding_geometry (center : ℚ × ℚ) (radius : ℚ) :
    (prefetchTargets center radius).length = 8 ∧
    ∀ t ∈ prefetchTargets center radius,
      t.2 = radius * 0.8 ∧
      (((t.1.1 - center.1)^2 + (t.1.2 - center.2)^2) * 111000^2 =
          radius^2 ∨
        ((t.1.1 - center.1)^2 + (t.1.2 - center.2)^2) * 111000^2 =
          (999698/1000000) * radius^2) := by
  constructor
  · simp [prefetchTargets, compassOffsets]
  · intro t ht
    simp only [prefetchTargets, compassOffsets, List.mem_map,
      List.mem_cons, List.not_mem_nil, or_false] at ht
    obtain ⟨o, ho, rfl⟩ := ht
    rcases ho with rfl | rfl | rfl | rfl | rfl | rfl | rfl | rfl <;>
      refine ⟨rfl, ?_⟩ <;>
      [left; right; left; right; left; right; left; right] <;>
      · field_simp
        ring

set_option maxRecDepth 10000 in
/-- Witness for the amended C3 at the North target of a 1000 m viewport
centered at the origin. -/
theorem prefetchSurrounding_geometry_witness :
    (prefetchTargets (0, 0) 1000).length = 8 ∧
    ((((1/111 : ℚ), (0 : ℚ)), (800 : ℚ)).2 = 1000 * 0.8 ∧
      ((((1/111 : ℚ) - 0)^2 + ((0 : ℚ) - 0)^2) * 111000^2 = 1000^2 ∨
        (((1/111 : ℚ) - 0)^2 + ((0 : ℚ) - 0)^2) * 111000^2 =
          (999698/1000000) * 1000^2)) :=
  ⟨(prefetchSurrounding_geometry (0, 0) 1000).1,
    (prefetchSurrounding_geometry (0, 0) 1000).2 ((1/111, 0), 800)
      (by with_unfolding_all decide)⟩

/-! ## Claim C2 — no radius expansion inside the orchestrator -/

/-- C2 counterexample: at a concrete uncached viewport the orchestrator's
network request carries exactly the requested radius 1000, not 1.5×1000 —
the 50 % expansion happens in the map component before calling, so both the
fetch and the cache key see the already-expanded value. -/
theorem fetchStreetDataByViewport_radius_counterexample :
    (fetchStreetDataByViewport tcSample [] emptyStreetCache (59.33, 18.06)
        1000 ⟨none⟩).2.2 = some ⟨1000, 59.33, 18.06⟩ ∧
    (1000 : ℚ) ≠ 1.5 * 1000 := by
  constructor
  · rfl
  · with_unfolding_all decide

/-- C2 (amended): for every uncached viewport key, the network request of
`fetchStreetDataByViewport` uses the exact requested radius, and the
results are cached under the viewport key derived from that same radius. -/
theorem fetchStreetDataByViewport_exact_radius
    (tc : List CoordEntry → List (ℚ × ℚ)) (rnds : List String)
    (st : StreetCacheState) (center : ℚ × ℚ) (radius : ℚ)
    (response : APIResponse)
    (hmiss : hasViewport st (getViewportCacheKey center radius) = false) :
    (fetchStreetDataByViewport tc rnds st center radius response).2.2 =
      some ⟨radius, center.1, center.2⟩ ∧
    hasViewport
      (fetchStreetDataByViewport tc rnds st center radius response).2.1
      (getViewportCacheKey center radius) = true := by
  unfold fetchStreetDataByViewport
  simp only [hmiss, Bool.false_eq_true, if_false]
  constructor
  · simp
  · unfold addStreetsForViewport hasViewport
    simp [mapGet_mapSet_self]

/-- Witness for the amended C2 on a fresh cache. -/
theorem fetchStreetDataByViewport_exact_radius_witness :
    hasViewport emptyStreetCache (getViewportCacheKey (59.33, 18.06) 1000) =
      false ∧
    ((fetchStreetDataByViewport tcSample [] emptyStreetCache (59.33, 18.06)
        1000 ⟨none⟩).2.2 = some ⟨1000, 59.33, 18.06⟩ ∧
      hasViewport
        (fetchStreetDataByViewport tcSample [] emptyStreetCache
          (59.33, 18.06) 1000 ⟨none⟩).2.1
        (getViewportCacheKey (59.33, 18.06) 1000) = true) :=
  ⟨rfl,
    fetchStreetDataByViewport_exact_radius tcSample [] emptyStreetCache
      (59.33, 18.06) 1000 ⟨none⟩ rfl⟩

/-! ## Claim C1 — random id suffixes defeat viewport deduplication -/

/-- C1 (code bug evaluation): two viewport fetches both containing the same
feature — identical `(streetName, addressRange, cleaningDay)` triple — whose
`Math.random()` draws differ (`0.1` vs `0.2`) leave TWO entries for that
identity triple in the Global Street Store after both merges, not one:
`transformAPIResponse` appends a fresh random suffix to every id, so the
identity-based upsert in `addStreetsForViewport` never collapses them. -/
theorem transform_random_id_defeats_dedup :
    (let segsA := transformAPIResponse tcSample ["0.1"] ⟨some [sampleFeature]⟩
     let segsB := transformAPIResponse tcSample ["0.2"] ⟨some [sampleFeature]⟩
     let st := addStreetsForViewport
       (addStreetsForViewport emptyStreetCache "vpA" segsA) "vpB" segsB
     (st.streetMap.filter (fun p =>
        p.2.streetName == "Sveavagen" && p.2.addressRange == "1-3" &&
        p.2.cleaningDay == "mandag")).length) = 2 := by
  with_unfolding_all decide

/-! ## Claim C7 — prefetch in-flight guard -/

theorem mem_setAdd_self (l : List String) (a : String) :
    a ∈ setAdd l a := by
  unfold setAdd
  split
  · assumption
  · simp

/-- C7: under the event-loop model, two concurrent `prefetchViewport` calls
for the same uncached, not-in-flight key (the second starting before the
first completes, i.e. both pre-`await` sections run before any completion)
invoke the fetch function exactly once — the first call invokes it, the
second sees the in-flight marker and does not; and for a key already in the
viewport cache, `prefetchViewport` returns without invoking the fetch
function at all. -/
theorem prefetchViewport_inflight_guard (ps : PrefetchState)
    (center : ℚ × ℚ) (radius : ℚ) :
    (hasViewport ps.cache (getViewportCacheKey center radius) = false →
      ps.activePrefetches.contains (getViewportCacheKey center radius) =
        false →
      ((prefetchViewportStart ps center radius).2 = true ∧
        (prefetchViewportStart (prefetchViewportStart ps center radius).1
            center radius).2 = false ∧
        ((if (prefetchViewportStart ps center radius).2 then 1 else 0) +
          (if (prefetchViewportStart
              (prefetchViewportStart ps center radius).1 center radius).2
            then 1 else 0) : Nat) = 1)) ∧
    (hasViewport ps.cache (getViewportCacheKey center radius) = true →
      prefetchViewportStart ps center radius = (ps, false)) := by
  constructor
  · intro h1 h2
    have h2' : getViewportCacheKey center radius ∉ ps.activePrefetches := by
      simpa using h2
    have hstart : prefetchViewportStart ps center radius =
        (⟨ps.cache,
            setAdd ps.activePrefetches (getViewportCacheKey center radius)⟩,
          true) := by
      unfold prefetchViewportStart
      simp [h1, h2']
    have hsecond : (prefetchViewportStart
        (prefetchViewportStart ps center radius).1 center radius).2 =
          false := by
      rw [hstart]
      unfold prefetchViewportStart
      simp [h1, mem_setAdd_self]
    refine ⟨by rw [hstart], hsecond, ?_⟩
    rw [hsecond, hstart]
    simp
  · intro h
    unfold prefetchViewportStart
    simp [h]

/-- Witness for C7: a fresh manager invokes the fetch exactly once for two
interleaved calls on an empty cache, and a manager whose cache already holds
the key for the same viewport does not invoke it. -/
theorem prefetchViewport_inflight_guard_witness :
    ((prefetchViewportStart ⟨emptyStreetCache, []⟩ (59.33, 18.06) 1000).2 =
        true ∧
      (prefetchViewportStart
          (prefetchViewportStart ⟨emptyStreetCache, []⟩ (59.33, 18.06)
            1000).1 (59.33, 18.06) 1000).2 = false ∧
      ((if (prefetchViewportStart ⟨emptyStreetCache, []⟩ (59.33, 18.06)
            1000).2 then 1 else 0) +
        (if (prefetchViewportStart
            (prefetchViewportStart ⟨emptyStreetCache, []⟩ (59.33, 18.06)
              1000).1 (59.33, 18.06) 1000).2 then 1 else 0) : Nat) = 1) ∧
    prefetchViewportStart
        ⟨⟨[], [("vp-59.330-18.060-1000", [])]⟩, []⟩ (59.33, 18.06) 1000 =
      (⟨⟨[], [("vp-59.330-18.060-1000", [])]⟩, []⟩, false) :=
  ⟨(prefetchViewport_inflight_guard ⟨emptyStreetCache, []⟩ (59.33, 18.06)
      1000).1 rfl rfl,
    (prefetchViewport_inflight_guard
        ⟨⟨[], [("vp-59.330-18.060-1000", [])]⟩, []⟩ (59.33, 18.06) 1000).2
      (by with_unfolding_all decide)⟩

/-! ## Fold lemmas for `addStreetsForViewport` -/

theorem length_le_foldl_addStreetsStep (streets : List StreetSegment) :
    ∀ acc : List (String × StreetSegment) × List String,
      acc.1.length ≤ (streets.foldl addStreetsStep acc).1.length := by
  induction streets with
  | nil => intro acc; simp
  | cons s t ih =>
    intro acc
    rw [List.foldl_cons]
    calc acc.1.length ≤ (addStreetsStep acc s).1.length :=
          length_le_mapSet _ _ _
      _ ≤ _ := ih (addStreetsStep acc s)

theorem isSome_foldl_addStreetsStep (streets : List StreetSegment) :
    ∀ (acc : List (String × StreetSegment) × List String) (id : String),
      (mapGet acc.1 id).isSome = true →
      (mapGet (streets.foldl addStreetsStep acc).1 id).isSome = true := by
  induction streets with
  | nil => intro acc id h; simpa using h
  | cons s t ih =>
    intro acc id h
    rw [List.foldl_cons]
    exact ih (addStreetsStep acc s) id (isSome_mapGet_mapSet _ _ _ _ h)

theorem resolve_foldl_addStreetsStep (streets : List StreetSegment) :
    ∀ acc : List (String × StreetSegment) × List String,
      (∀ id ∈ acc.2, (mapGet acc.1 id).isSome = true) →
      ∀ id ∈ (streets.foldl addStreetsStep acc).2,
        (mapGet (streets.foldl addStreetsStep acc).1 id).isSome = true := by
  induction streets with
  | nil => intro acc h; simpa using h
  | cons s t ih =>
    intro acc h
    rw [List.foldl_cons]
    apply ih
    intro id hid
    rcases (mem_setAdd _ _ _).mp hid with hmem | rfl
    · exact isSome_mapGet_mapSet _ _ _ _ (h id hmem)
    · show (mapGet (mapSet acc.1 (assignedStreetId s) _)
        (assignedStreetId s)).isSome = true
      rw [mapGet_mapSet_self]
      rfl

theorem nodup_foldl_addStreetsStep (streets : List StreetSegment) :
    ∀ acc : List (String × StreetSegment) × List String,
      (acc.1.map Prod.fst).Nodup → acc.2.Nodup →
      ((streets.foldl addStreetsStep acc).1.map Prod.fst).Nodup ∧
      (streets.foldl addStreetsStep acc).2.Nodup := by
  induction streets with
  | nil => intro acc h1 h2; exact ⟨h1, h2⟩
  | cons s t ih =>
    intro acc h1 h2
    rw [List.foldl_cons]
    exact ih (addStreetsStep acc s) (nodup_keys_mapSet _ _ _ h1)
      (setAdd_nodup _ _ h2)

/-! ## Claim C9 — street store monotonicity and viewport-subset invariant -/

theorem subsetInv_addStreetsForViewport (st : StreetCacheState)
    (h : ∀ k ids, mapGet st.viewportCache k = some ids →
      ∀ id ∈ ids, (mapGet st.streetMap id).isSome = true)
    (vk : String) (streets : List StreetSegment) :
    ∀ k ids,
      mapGet (addStreetsForViewport st vk streets).viewportCache k =
        some ids →
      ∀ id ∈ ids,
        (mapGet (addStreetsForViewport st vk streets).streetMap id).isSome =
          true := by
  intro k ids hk id hid
  simp only [addStreetsForViewport] at hk ⊢
  by_cases hkv : k = vk
  · subst hkv
    rw [mapGet_mapSet_self] at hk
    obtain rfl := Option.some.inj hk
    exact resolve_foldl_addStreetsStep streets (st.streetMap, [])
      (by simp) id hid
  · rw [mapGet_mapSet_ne _ _ _ _ hkv] at hk
    exact isSome_foldl_addStreetsStep streets (st.streetMap, []) id
      (h k ids hk id hid)

theorem subsetInv_runOps (ops : List CacheOp) :
    ∀ st : StreetCacheState,
      (∀ k ids, mapGet st.viewportCache k = some ids →
        ∀ id ∈ ids, (mapGet st.streetMap id).isSome = true) →
      ∀ k ids, mapGet (ops.foldl applyOp st).viewportCache k = some ids →
        ∀ id ∈ ids,
          (mapGet (ops.foldl applyOp st).streetMap id).isSome = true := by
  induction ops with
  | nil => intro st h; simpa using h
  | cons op t ih =>
    intro st h
    rw [List.foldl_cons]
    apply ih
    cases op with
    | add vk streets => exact subsetInv_addStreetsForViewport st h vk streets
    | clear =>
      intro k ids hk
      simp [applyOp, emptyStreetCache, mapGet] at hk

/-- C9: in every street-cache state reachable from the empty state by
`addStreetsForViewport` and `clear` operations, every viewport entry's id
set resolves entirely in the Global Street Store, a further
`addStreetsForViewport` never decreases the street store's entry count, and
`clear` empties the street store. -/
theorem streetCache_invariants (ops : List CacheOp) :
    (∀ k ids, mapGet (runOps ops).viewportCache k = some ids →
      ∀ id ∈ ids, (mapGet (runOps ops).streetMap id).isSome = true) ∧
    (∀ k streets,
      (runOps ops).streetMap.length ≤
        (addStreetsForViewport (runOps ops) k streets).streetMap.length) ∧
    (applyOp (runOps ops) CacheOp.clear).streetMap.length = 0 := by
  refine ⟨?_, ?_, rfl⟩
  · exact subsetInv_runOps ops emptyStreetCache
      (by intro k ids hk; simp [emptyStreetCache, mapGet] at hk)
  · intro k streets
    exact length_le_foldl_addStreetsStep streets ((runOps ops).streetMap, [])

/-- Witness for C9 after one concrete `add` operation. -/
theorem streetCache_invariants_witness :
    (mapGet (runOps [CacheOp.add "vpA" [sampleSegment]]).viewportCache
        "vpA" = some ["s1"] ∧
      (mapGet (runOps [CacheOp.add "vpA" [sampleSegment]]).streetMap
          "s1").isSome = true) ∧
    (runOps [CacheOp.add "vpA" [sampleSegment]]).streetMap.length ≤
      (addStreetsForViewport (runOps [CacheOp.add "vpA" [sampleSegment]])
        "vpB" []).streetMap.length ∧
    (applyOp (runOps [CacheOp.add "vpA" [sampleSegment]])
      CacheOp.clear).streetMap.length = 0 :=
  ⟨⟨rfl,
      (streetCache_invariants [CacheOp.add "vpA" [sampleSegment]]).1 "vpA"
        ["s1"] rfl "s1" (by simp)⟩,
    (streetCache_invariants [CacheOp.add "vpA" [sampleSegment]]).2.1
      "vpB" [],
    (streetCache_invariants [CacheOp.add "vpA" [sampleSegment]]).2.2⟩

/-! ## Claim C8 — persistence round trip across restart -/

theorem wf_addStreetsForViewport (st : StreetCacheState) (vk : String)
    (streets : List StreetSegment) (h : WFState st) :
    WFState (addStreetsForViewport st vk streets) := by
  obtain ⟨h1, h2, h3⟩ := h
  have hf := nodup_foldl_addStreetsStep streets (st.streetMap, []) h1
    (by simp)
  refine ⟨hf.1, nodup_keys_mapSet _ _ _ h2, ?_⟩
  intro p hp
  simp only [addStreetsForViewport] at hp
  rcases mem_mapSet _ _ _ _ hp with rfl | hpm
  · exact hf.2
  · exact h3 p hpm

theorem foldl_mapSet_of_disjoint {β : Type} (l : List (String × β)) :
    ∀ acc : List (String × β),
      (∀ k, k ∈ acc.map Prod.fst → k ∉ l.map Prod.fst) →
      (l.map Prod.fst).Nodup →
      l.foldl (fun m p => mapSet m p.1 p.2) acc = acc ++ l := by
  induction l with
  | nil => intro acc _ _; simp
  | cons p t ih =>
    intro acc hdisj hnd
    rw [List.foldl_cons]
    have hany : acc.any (fun q => q.1 == p.1) = false := by
      rw [List.any_eq_false]
      intro q hq
      have hnmem : q.1 ∉ (p :: t).map Prod.fst :=
        hdisj q.1 (List.mem_map_of_mem Prod.fst hq)
      simp only [List.map_cons, List.mem_cons, not_or] at hnmem
      simp [hnmem.1]
    have hset : mapSet acc p.1 p.2 = acc ++ [p] := by
      unfold mapSet
      rw [hany]
      simp
    rw [hset, ih (acc ++ [p]) ?_ ?_]
    · simp
    · intro k hk
      simp only [List.map_append, List.mem_append, List.map_cons,
        List.mem_singleton] at hk
      rcases hk with hk | hk
      · have := hdisj k hk
        simp only [List.map_cons, List.mem_cons, not_or] at this
        exact this.2
      · have hk' : k = p.1 := by simpa using hk
        rw [hk']
        simp only [List.map_cons] at hnd
        rw [List.nodup_cons] at hnd
        exact hnd.1
    · simp only [List.map_cons] at hnd
      exact (List.nodup_cons.mp hnd).2

theorem newMapFromList_self {β : Type} (l : List (String × β))
    (h : (l.map Prod.fst).Nodup) : newMapFromList l = l := by
  unfold newMapFromList
  rw [foldl_mapSet_of_disjoint l [] (by simp) h]
  simp

theorem foldl_setAdd_of_disjoint (l : List String) :
    ∀ acc : List String,
      (∀ a ∈ acc, a ∉ l) → l.Nodup → l.foldl setAdd acc = acc ++ l := by
  induction l with
  | nil => intro acc _ _; simp
  | cons a t ih =>
    intro acc hdisj hnd
    rw [List.foldl_cons]
    have hset : setAdd acc a = acc ++ [a] := by
      unfold setAdd
      rw [if_neg]
      intro hmem
      exact hdisj a hmem (List.mem_cons_self a t)
    rw [hset, ih (acc ++ [a]) ?_ (List.nodup_cons.mp hnd).2]
    · simp
    · intro b hb
      simp only [List.mem_append, List.mem_singleton] at hb
      rcases hb with hb | rfl
      · intro hbt
        exact hdisj b hb (List.mem_cons_of_mem a hbt)
      · exact (List.nodup_cons.mp hnd).1

theorem newSetFromList_self (l : List String) (h : l.Nodup) :
    newSetFromList l = l := by
  unfold newSetFromList
  rw [foldl_setAdd_of_disjoint l [] (by simp) h]
  simp

theorem mapGet_setCachedData_success {T : Type} (sz : T → Nat)
    (quotaOk : Storage T → String → CachedData T → Bool) (now : Int)
    (st : Storage T) (key : String) (data : T)
    (h : (setCachedData sz quotaOk now st key data).1 = true) :
    mapGet (setCachedData sz quotaOk now st key data).2 (storageKey key) =
      some ⟨data, now⟩ := by
  unfold setCachedData at h ⊢
  cases hq : quotaOk st (storageKey key) ⟨data, now⟩ with
  | true => simp [hq, mapGet_mapSet_self]
  | false =>
    by_cases hs : sz data < 8 * 1024 * 1024
    · cases hq2 : quotaOk (clearCache st) (storageKey key) ⟨data, now⟩ with
      | true => simp [hq, hs, hq2, mapGet_mapSet_self]
      | false => simp [hq, hs, hq2] at h
    · simp [hq, hs] at h

/-- C8: for every well-formed street-cache state, after
`addStreetsForViewport` persists its update and the persistent write
succeeds, constructing a new street cache against the resulting store
within the 24-hour window (a process restart) yields `hasViewport = true`
for the written key and exactly the same segment contents as before the
restart. -/
theorem streetCache_restart_roundtrip (sz : PersistedStreetData → Nat)
    (quotaOk : Storage PersistedStreetData → String →
      CachedData PersistedStreetData → Bool)
    (now now2 : Int) (st : StreetCacheState)
    (store : Storage PersistedStreetData) (viewportKey : String)
    (streets : List StreetSegment)
    (hwf : WFState st)
    (hsucc : (setCachedData sz quotaOk now store "street-cache-by-id"
        ⟨(addStreetsForViewport st viewportKey streets).streetMap,
          (addStreetsForViewport st viewportKey streets).viewportCache⟩).1 =
      true)
    (hfresh : now2 - now ≤ CACHE_DURATION_MS) :
    hasViewport (streetCacheLoad now2
        (addStreetsForViewportPersist sz quotaOk now st store viewportKey
          streets).2).1 viewportKey = true ∧
    getStreetsForViewport (streetCacheLoad now2
        (addStreetsForViewportPersist sz quotaOk now st store viewportKey
          streets).2).1 viewportKey =
      getStreetsForViewport (addStreetsForViewport st viewportKey streets)
        viewportKey := by
  set st1 := addStreetsForViewport st viewportKey streets with hst1
  have hwf1 : WFState st1 := wf_addStreetsForViewport st viewportKey
    streets hwf
  set d : PersistedStreetData := ⟨st1.streetMap, st1.viewportCache⟩ with hd
  set store1 := (setCachedData sz quotaOk now store "street-cache-by-id"
    d).2 with hstore1
  have hpersist : (addStreetsForViewportPersist sz quotaOk now st store
      viewportKey streets).2 = store1 := rfl
  have hlook : mapGet store1 (storageKey "street-cache-by-id") =
      some ⟨d, now⟩ :=
    mapGet_setCachedData_success sz quotaOk now store "street-cache-by-id"
      d hsucc
  have hget : getCachedData now2 store1 "street-cache-by-id" =
      (some d, store1) := by
    unfold getCachedData
    rw [hlook]
    have hok : ¬(now2 - now > CACHE_DURATION_MS) := by omega
    simp [hok]
  have hload : (streetCacheLoad now2 store1).1 =
      ⟨newMapFromList d.streets,
        newMapFromList (d.viewports.map
          (fun p => (p.1, newSetFromList p.2)))⟩ := by
    unfold streetCacheLoad
    rw [hget]
  have hmaps : newMapFromList d.streets = st1.streetMap :=
    newMapFromList_self _ hwf1.1
  have hvmap : d.viewports.map (fun p => (p.1, newSetFromList p.2)) =
      st1.viewportCache := by
    have hcongr : ∀ p ∈ st1.viewportCache,
        (p.1, newSetFromList p.2) = p := by
      intro p hp
      rw [newSetFromList_self p.2 (hwf1.2.2 p hp)]
    calc st1.viewportCache.map (fun p => (p.1, newSetFromList p.2)) =
          st1.viewportCache.map id := List.map_congr_left hcongr
      _ = st1.viewportCache := List.map_id _
  have hstate : (streetCacheLoad now2 store1).1 = st1 := by
    rw [hload, hmaps, hvmap, newMapFromList_self _ hwf1.2.1]
  rw [hpersist, hstate]
  constructor
  · show (mapGet st1.viewportCache viewportKey).isSome = true
    rw [hst1]
    simp only [addStreetsForViewport]
    rw [mapGet_mapSet_self]
    rfl
  · rfl

/-- Witness for C8: one segment persisted from the empty cache under an
always-succeeding storage, reloaded one hour later. -/
theorem streetCache_restart_roundtrip_witness :
    ((setCachedData (fun _ => 1) (fun _ _ _ => true) 0
        ([] : Storage PersistedStreetData) "street-cache-by-id"
        ⟨(addStreetsForViewport emptyStreetCache "vpA"
            [sampleSegment]).streetMap,
          (addStreetsForViewport emptyStreetCache "vpA"
            [sampleSegment]).viewportCache⟩).1 = true) ∧
    ((3600000 : Int) - 0 ≤ CACHE_DURATION_MS) ∧
    (hasViewport (streetCacheLoad 3600000
        (addStreetsForViewportPersist (fun _ => 1) (fun _ _ _ => true) 0
          emptyStreetCache [] "vpA" [sampleSegment]).2).1 "vpA" = true ∧
      getStreetsForViewport (streetCacheLoad 3600000
          (addStreetsForViewportPersist (fun _ => 1) (fun _ _ _ => true) 0
            emptyStreetCache [] "vpA" [sampleSegment]).2).1 "vpA" =
        getStreetsForViewport
          (addStreetsForViewport emptyStreetCache "vpA" [sampleSegment])
          "vpA") :=
  ⟨rfl, by decide,
    streetCache_restart_roundtrip (fun _ => 1) (fun _ _ _ => true) 0
      3600000 emptyStreetCache [] "vpA" [sampleSegment]
      ⟨List.nodup_nil, List.nodup_nil, by intro p hp; cases hp⟩ rfl
      (by decide)⟩

end Stadgata
